import Mathlib

/-!
Shallow embedding of the resilient cache-access layer in
`Backend/utils/redisClient.js` (the Cache Gateway of the spec).

The module-level mutable state of the source file is the pair
`(redisClient, redisAvailable)`; it is modelled by `GatewayState`.
The ioredis client object is modelled by `Client`, which records its
connection `status` string (ioredis statuses: "wait", "connecting",
"connect", "ready", "reconnecting", "close", "end") together with
bookkeeping counters for the number of registered event handlers and
the number of `connect()` calls issued, so that idempotence of
`initRedis` can be stated.

Each public operation of `getRedisClient()` is an async function that
either returns early (availability guard), or awaits one transport
round-trip. An operation is embedded as a pure function from the
current `GatewayState` and the outcome of that single transport
round-trip (`TransportResult`) to an `OpOutcome`: the new state, the
value returned to the caller, and whether the transport was contacted
at all. A JavaScript exception thrown by the awaited transport call is
the `TransportResult.failure` constructor; the embedded operations are
total Lean functions, mirroring the fact that every `try/catch` in the
source swallows the failure and returns a plain value.
-/

namespace RedisGateway

/-- Model of the ioredis client object created by `new Redis(redisOptions)`.
`status` is the ioredis connection status string. The counter fields
record how many times each `on(event, ...)` registration ran and how
many times `connect()` was invoked on this object. -/
structure Client where
  status : String
  errorHandlers : Nat
  connectHandlers : Nat
  readyHandlers : Nat
  closeHandlers : Nat
  reconnectingHandlers : Nat
  connectAttempts : Nat
deriving DecidableEq, Repr

/-- Module-level mutable state of `redisClient.js`: the optional client
handle `let redisClient` and the flag `let redisAvailable = false`. -/
structure GatewayState where
  redisClient : Option Client
  redisAvailable : Bool
deriving DecidableEq, Repr

/-- Initial module state: no client, `redisAvailable = false`. -/
def init0 : GatewayState := { redisClient := none, redisAvailable := false }

/-- The client object as it exists right after the body of `initRedis`
runs on a fresh state: every handler registered exactly once, exactly
one `connect()` call issued, status "connecting" (because `lazyConnect`
is set and `connect()` has just been called). -/
def freshClient : Client :=
  { status := "connecting"
    errorHandlers := 1
    connectHandlers := 1
    readyHandlers := 1
    closeHandlers := 1
    reconnectingHandlers := 1
    connectAttempts := 1 }

/-- Embedding of `initRedis`: `if (!redisClient) { ... create client,
register handlers, call connect() ... }`. When a client object already
exists the whole body is skipped. The asynchronous rejection of the
initial `connect()` promise is a separate later event
(`GwEvent.connectRejectedEv` below), not part of this synchronous call. -/
def initRedis (s : GatewayState) : GatewayState :=
  match s.redisClient with
  | some _ => s
  | none => { redisClient := some freshClient, redisAvailable := s.redisAvailable }

/-- Outcome of the single awaited transport round-trip of an operation:
`ok reply` when the promise resolves with `reply`, `failure msg` when it
rejects (timeout, connection error, protocol error) with message `msg`. -/
inductive TransportResult (α : Type) where
  | ok (reply : α)
  | failure (msg : String)
deriving DecidableEq, Repr

/-- Result of running one public operation: the module state after the
call, the value returned to the caller, and whether the transport was
contacted (`ioPerformed = false` on the fast-path early return). -/
structure OpOutcome (α : Type) where
  state : GatewayState
  ret : α
  ioPerformed : Bool
deriving DecidableEq, Repr

/-- The availability guard shared by every operation:
`!redisAvailable || !redisClient` negated, i.e. the operation proceeds
to the transport only when the flag is true and a client handle exists. -/
def opGuard (s : GatewayState) : Bool :=
  s.redisAvailable && s.redisClient.isSome

/-- Embedding of `get(key)`: guard, then `await redisClient.get(key)`
(reply: value or null), returning `null` and flipping the flag false on
a caught transport failure. -/
def get (s : GatewayState) (key : String)
    (t : TransportResult (Option String)) : OpOutcome (Option String) :=
  if opGuard s then
    match t with
    | .ok v => { state := s, ret := v, ioPerformed := true }
    | .failure _ =>
        { state := { redisClient := s.redisClient, redisAvailable := false }
          ret := none, ioPerformed := true }
  else { state := s, ret := none, ioPerformed := false }

/-- Embedding of `setex(key, seconds, value)`: guard, then
`await redisClient.setex(...)` whose reply is discarded, returning
`true` on success and `false` (with the flag flipped) on failure. -/
def setex (s : GatewayState) (key : String) (seconds : Nat) (value : String)
    (t : TransportResult String) : OpOutcome Bool :=
  if opGuard s then
    match t with
    | .ok _ => { state := s, ret := true, ioPerformed := true }
    | .failure _ =>
        { state := { redisClient := s.redisClient, redisAvailable := false }
          ret := false, ioPerformed := true }
  else { state := s, ret := false, ioPerformed := false }

/-- Embedding of `del(key)`: guard, then `await redisClient.del(key)`.
The transport reply is the number of keys actually removed; the source
discards it and returns `true` whenever the call resolves. -/
def del (s : GatewayState) (key : String)
    (t : TransportResult Nat) : OpOutcome Bool :=
  if opGuard s then
    match t with
    | .ok _ => { state := s, ret := true, ioPerformed := true }
    | .failure _ =>
        { state := { redisClient := s.redisClient, redisAvailable := false }
          ret := false, ioPerformed := true }
  else { state := s, ret := false, ioPerformed := false }

/-- Embedding of `mget(keys)`: the guard additionally requires
`keys.length` truthy, i.e. a nonempty key list; otherwise the empty
sequence is returned without transport contact. On success the transport
reply (one value-or-null per key) is returned as-is; on failure the
empty sequence is returned and the flag flipped. -/
def mget (s : GatewayState) (keys : List String)
    (t : TransportResult (List (Option String))) :
    OpOutcome (List (Option String)) :=
  if opGuard s && !keys.isEmpty then
    match t with
    | .ok vs => { state := s, ret := vs, ioPerformed := true }
    | .failure _ =>
        { state := { redisClient := s.redisClient, redisAvailable := false }
          ret := [], ioPerformed := true }
  else { state := s, ret := [], ioPerformed := false }

/-- Embedding of `mset(keyValuePairs)`: the guard additionally requires
a nonempty pair list (`!keyValuePairs.length` returns `false` early).
The transport reply of a successful MSET is discarded and `true` is
returned; failure returns `false` and flips the flag. -/
def mset (s : GatewayState) (pairs : List (String × String))
    (t : TransportResult String) : OpOutcome Bool :=
  if opGuard s && !pairs.isEmpty then
    match t with
    | .ok _ => { state := s, ret := true, ioPerformed := true }
    | .failure _ =>
        { state := { redisClient := s.redisClient, redisAvailable := false }
          ret := false, ioPerformed := true }
  else { state := s, ret := false, ioPerformed := false }

/-- Embedding of `ping()`: guard, then `await redisClient.ping()` and
compare the reply against the exact sentinel: `result === 'PONG'`. -/
def ping (s : GatewayState)
    (t : TransportResult String) : OpOutcome Bool :=
  if opGuard s then
    match t with
    | .ok reply => { state := s, ret := reply == "PONG", ioPerformed := true }
    | .failure _ =>
        { state := { redisClient := s.redisClient, redisAvailable := false }
          ret := false, ioPerformed := true }
  else { state := s, ret := false, ioPerformed := false }

/-- Embedding of `isAvailable()`:
`redisAvailable && redisClient?.status === 'ready'`. -/
def isAvailable (s : GatewayState) : Bool :=
  s.redisAvailable &&
    (match s.redisClient with
     | some c => c.status == "ready"
     | none => false)

/-- Embedding of the `retryStrategy` option:
`(times) => Math.min(times * 50, 2000)`. In ioredis, a retry strategy
stops reconnection by returning a non-number; the source always returns
a number, modelled by always producing `some` delay. -/
def retryStrategy (times : Nat) : Option Nat :=
  some (Nat.min (times * 50) 2000)

/-! ### The event-driven availability state machine

The flag `redisAvailable` is written by the five `redisClient.on(...)`
handlers registered in `initRedis`, by the `.catch` on the initial
`connect()` call, and by the `catch` block of each operation. Each of
those writers is one `GwEvent`; `step` is the transition it performs on
the module state, together with the ioredis status change that
accompanies the event. -/

/-- Events that mutate the module state: a call to `initRedis`, the five
registered transport event handlers, the rejection of the initial
`connect()` promise, the `catch` block of a failed operation, and the
graceful `quit()` issued by the shutdown signal handlers. -/
inductive GwEvent where
  | initCall
  | connectEv
  | readyEv
  | errorEv (msg : String)
  | closeEv
  | reconnectingEv
  | connectRejectedEv (msg : String)
  | opFailEv (opName : String) (msg : String)
  | quitEv
deriving DecidableEq, Repr

/-- Replace the ioredis status of a client object. -/
def setStatus (c : Client) (st : String) : Client := { c with status := st }

/-- One transition of the module state. Transport events can only fire
after `initRedis` created the client and registered the handlers, so
every event other than `initCall` is the identity on a client-less
state. The handler bodies are exactly the source's: `connect` and
`ready` set the flag true, `error`/`close`/`reconnecting`, the
`connect()` rejection and every operation `catch` set it false. The
status field follows ioredis: "connect" on the connect event, "ready"
on ready, "close" on close, "reconnecting" on reconnecting, unchanged
on an error event. A graceful `quit()` closes the connection, so the
registered close handler (flag := false) has run by the time the
status reaches "end". -/
def step (s : GatewayState) (e : GwEvent) : GatewayState :=
  match e with
  | .initCall => initRedis s
  | _ =>
    match s.redisClient with
    | none => s
    | some c =>
      match e with
      | .initCall => s
      | .connectEv =>
          { redisClient := some (setStatus c "connect"), redisAvailable := true }
      | .readyEv =>
          { redisClient := some (setStatus c "ready"), redisAvailable := true }
      | .errorEv _ =>
          { redisClient := some c, redisAvailable := false }
      | .closeEv =>
          { redisClient := some (setStatus c "close"), redisAvailable := false }
      | .reconnectingEv =>
          { redisClient := some (setStatus c "reconnecting"), redisAvailable := false }
      | .connectRejectedEv _ =>
          { redisClient := some c, redisAvailable := false }
      | .opFailEv _ _ =>
          { redisClient := some c, redisAvailable := false }
      | .quitEv =>
          { redisClient := some (setStatus c "end"), redisAvailable := false }

/-- Run a sequence of events from the fresh module state. -/
def run (es : List GwEvent) : GatewayState := es.foldl step init0

/-- The spec's Connection State, read off the ioredis status of the
modelled client: no client is Uninitialized; "connect" (tentative) and
"ready" are Ready; "close" is Degraded; "end" is Closed; the remaining
statuses ("wait", "connecting", "reconnecting") are Connecting. -/
inductive ConnState where
  | uninitialized
  | connecting
  | ready
  | degraded
  | closed
deriving DecidableEq, Repr

/-- Map a module state to the spec's Connection State. -/
def connStateOf (s : GatewayState) : ConnState :=
  match s.redisClient with
  | none => ConnState.uninitialized
  | some c =>
    if c.status == "connect" || c.status == "ready" then ConnState.ready
    else if c.status == "close" then ConnState.degraded
    else if c.status == "end" then ConnState.closed
    else ConnState.connecting

/-- Model of the remote cache server's MGET semantics (the transport's
wire protocol is assumed given by the spec, not reimplemented): given
the store contents, MGET answers one value-or-null per requested key,
positionally. -/
def redisMget (store : String → Option String) (keys : List String) :
    List (Option String) :=
  keys.map store

/-- A reachable state in which the connection is fully available:
`initRedis` followed by the transport's ready event. -/
def sReadyState : GatewayState := run [GwEvent.initCall, GwEvent.readyEv]

/-- A reachable state after the transport's connect event but before its
ready event: the flag is true and the status is "connect". -/
def sConnectState : GatewayState := run [GwEvent.initCall, GwEvent.connectEv]

/-- A reachable state in which a client exists but the flag is false
(an error event fired after initialization). -/
def sDownState : GatewayState :=
  run [GwEvent.initCall, GwEvent.readyEv, GwEvent.errorEv "boom"]

/-- Auxiliary invariant for the availability state machine: whenever the
flag is true, a client exists and its status is "connect" or "ready"
(the only two handlers that set the flag true also set that status). -/
def AvailInv (s : GatewayState) : Prop :=
  s.redisAvailable = true →
    ∃ c, s.redisClient = some c ∧ (c.status = "connect" ∨ c.status = "ready")

/-- A small concrete cache-store used to instantiate batch theorems. -/
def demoStore : String → Option String :=
  fun k => if k == "a" then some "1" else none

/-! ### Theorems -/

/-- Helper: `initRedis` is the identity once a client object exists. -/
theorem initRedis_noop_of_isSome (s : GatewayState)
    (h : s.redisClient.isSome = true) : initRedis s = s := by
  cases hc : s.redisClient with
  | none => rw [hc] at h; simp at h
  | some c => simp [initRedis, hc]

/-- C1: under the availability guard, a transport-level failure during
any of the six public operations flips the flag false and yields the
operation's safe default; the embedded operations are total, so no
failure escapes as an exception. -/
theorem transport_failure_safe_default (s : GatewayState)
    (key value msg : String) (seconds : Nat)
    (keys : List String) (pairs : List (String × String))
    (hg : opGuard s = true) (hk : keys ≠ []) (hp : pairs ≠ []) :
    ((get s key (TransportResult.failure msg)).ret = none
      ∧ (get s key (TransportResult.failure msg)).state.redisAvailable = false)
    ∧ ((setex s key seconds value (TransportResult.failure msg)).ret = false
      ∧ (setex s key seconds value (TransportResult.failure msg)).state.redisAvailable = false)
    ∧ ((del s key (TransportResult.failure msg)).ret = false
      ∧ (del s key (TransportResult.failure msg)).state.redisAvailable = false)
    ∧ ((mget s keys (TransportResult.failure msg)).ret = []
      ∧ (mget s keys (TransportResult.failure msg)).state.redisAvailable = false)
    ∧ ((mset s pairs (TransportResult.failure msg)).ret = false
      ∧ (mset s pairs (TransportResult.failure msg)).state.redisAvailable = false)
    ∧ ((ping s (TransportResult.failure msg)).ret = false
      ∧ (ping s (TransportResult.failure msg)).state.redisAvailable = false) := by
  cases keys with
  | nil => exact absurd rfl hk
  | cons k ks =>
    cases pairs with
    | nil => exact absurd rfl hp
    | cons p ps => simp [get, setex, del, mget, mset, ping, hg]

/-- Witness for C1 at a concrete reachable available state. -/
theorem transport_failure_safe_default_witness :
    (get sReadyState "k" (TransportResult.failure "timeout")).ret = none
    ∧ (get sReadyState "k" (TransportResult.failure "timeout")).state.redisAvailable = false
    ∧ (mget sReadyState ["a"] (TransportResult.failure "timeout")).ret = [] := by
  have h := transport_failure_safe_default sReadyState "k" "v" "timeout" 60
    ["a"] [("a", "1")] (by decide) (by decide) (by decide)
  exact ⟨h.1.1, h.1.2, h.2.2.2.1.1⟩

/-- C2: when the flag is false or no client handle exists, every public
operation returns its safe default immediately, leaves the state
unchanged and performs no transport round-trip, whatever the transport
would have answered. -/
theorem unavailable_fast_path (s : GatewayState)
    (key value : String) (seconds : Nat)
    (keys : List String) (pairs : List (String × String))
    (tg : TransportResult (Option String)) (ts : TransportResult String)
    (td : TransportResult Nat) (tm : TransportResult (List (Option String)))
    (tp : TransportResult String) (tq : TransportResult String)
    (h : s.redisAvailable = false ∨ s.redisClient = none) :
    get s key tg = { state := s, ret := none, ioPerformed := false }
    ∧ setex s key seconds value ts = { state := s, ret := false, ioPerformed := false }
    ∧ del s key td = { state := s, ret := false, ioPerformed := false }
    ∧ mget s keys tm = { state := s, ret := [], ioPerformed := false }
    ∧ mset s pairs tp = { state := s, ret := false, ioPerformed := false }
    ∧ ping s tq = { state := s, ret := false, ioPerformed := false } := by
  have hg : opGuard s = false := by
    rcases h with h | h <;> simp [opGuard, h]
  simp [get, setex, del, mget, mset, ping, hg]

/-- Witness for C2 at the fresh (uninitialized) module state. -/
theorem unavailable_fast_path_witness :
    get init0 "k" (TransportResult.ok (some "v"))
      = { state := init0, ret := none, ioPerformed := false }
    ∧ ping init0 (TransportResult.ok "PONG")
      = { state := init0, ret := false, ioPerformed := false } := by
  have h := unavailable_fast_path init0 "k" "v" 60 ["a"] [("a", "1")]
    (TransportResult.ok (some "v")) (TransportResult.ok "OK")
    (TransportResult.ok 1) (TransportResult.ok [])
    (TransportResult.ok "OK") (TransportResult.ok "PONG")
    (Or.inl rfl)
  exact ⟨h.1, h.2.2.2.2.2⟩

/-- C3 (counterexample to the unconditional claim): in the reachable
state where an error event has set the flag false, `mget` on the
one-element key list returns the empty sequence, not a sequence of
length 1, whatever the transport would have answered. -/
theorem mget_alignment_cx :
    (mget sDownState ["a"] (TransportResult.ok [some "1"])).ret.length = 0
    ∧ (["a"] : List String).length = 1 := by
  decide

/-- C3 (amended): under the availability guard, when the transport MGET
succeeds, `mget` returns exactly one value-or-null per input key,
positionally aligned (the result is the pointwise image of the key list
under the store, preserving order and duplicates, misses as `none`); on
a transport failure or outside the guard it returns the empty sequence. -/
theorem mget_alignment_available (s : GatewayState) (keys : List String)
    (store : String → Option String) (msg : String)
    (hg : opGuard s = true) :
    (mget s keys (TransportResult.ok (redisMget store keys))).ret = keys.map store
    ∧ (mget s keys (TransportResult.ok (redisMget store keys))).ret.length = keys.length
    ∧ (∀ i : Nat,
        (mget s keys (TransportResult.ok (redisMget store keys))).ret[i]?
          = (keys[i]?).map store)
    ∧ (mget s keys (TransportResult.failure msg)).ret = [] := by
  have hret : (mget s keys (TransportResult.ok (redisMget store keys))).ret
      = keys.map store := by
    cases keys with
    | nil => simp [mget, redisMget]
    | cons k ks => simp [mget, hg, redisMget]
  refine ⟨hret, ?_, ?_, ?_⟩
  · rw [hret]; exact List.length_map _ _
  · intro i; rw [hret]; exact List.getElem?_map _ _ _
  · cases keys with
    | nil => simp [mget]
    | cons k ks => simp [mget, hg]

/-- Witness for the amended C3 on a duplicate-carrying key list in a
reachable available state. -/
theorem mget_alignment_available_witness :
    (mget sReadyState ["a", "b", "a"]
        (TransportResult.ok (redisMget demoStore ["a", "b", "a"]))).ret
      = ["a", "b", "a"].map demoStore :=
  (mget_alignment_available sReadyState ["a", "b", "a"] demoStore "err" (by decide)).1

/-- Helper: the availability invariant holds in the fresh module state. -/
theorem availInv_init0 : AvailInv init0 := by
  intro h
  simp [init0] at h

/-- Helper: one step of the state machine preserves the availability
invariant: the only transitions that set the flag true also move the
status to "connect" or "ready". -/
theorem availInv_step (s : GatewayState) (e : GwEvent) (h : AvailInv s) :
    AvailInv (step s e) := by
  cases e with
  | initCall =>
    cases hc : s.redisClient with
    | some c =>
      have hs : step s GwEvent.initCall = s := by simp [step, initRedis, hc]
      rw [hs]; exact h
    | none =>
      intro ha
      simp [step, initRedis, hc] at ha
      obtain ⟨c, hcc, _⟩ := h ha
      rw [hc] at hcc
      exact Option.noConfusion hcc
  | connectEv =>
    cases hc : s.redisClient with
    | none =>
      have hs : step s GwEvent.connectEv = s := by simp [step, hc]
      rw [hs]; exact h
    | some c =>
      intro _
      exact ⟨setStatus c "connect", by simp [step, hc], Or.inl rfl⟩
  | readyEv =>
    cases hc : s.redisClient with
    | none =>
      have hs : step s GwEvent.readyEv = s := by simp [step, hc]
      rw [hs]; exact h
    | some c =>
      intro _
      exact ⟨setStatus c "ready", by simp [step, hc], Or.inr rfl⟩
  | errorEv msg =>
    cases hc : s.redisClient with
    | none =>
      have hs : step s (GwEvent.errorEv msg) = s := by simp [step, hc]
      rw [hs]; exact h
    | some c => intro ha; simp [step, hc] at ha
  | closeEv =>
    cases hc : s.redisClient with
    | none =>
      have hs : step s GwEvent.closeEv = s := by simp [step, hc]
      rw [hs]; exact h
    | some c => intro ha; simp [step, hc] at ha
  | reconnectingEv =>
    cases hc : s.redisClient with
    | none =>
      have hs : step s GwEvent.reconnectingEv = s := by simp [step, hc]
      rw [hs]; exact h
    | some c => intro ha; simp [step, hc] at ha
  | connectRejectedEv msg =>
    cases hc : s.redisClient with
    | none =>
      have hs : step s (GwEvent.connectRejectedEv msg) = s := by simp [step, hc]
      rw [hs]; exact h
    | some c => intro ha; simp [step, hc] at ha
  | opFailEv opName msg =>
    cases hc : s.redisClient with
    | none =>
      have hs : step s (GwEvent.opFailEv opName msg) = s := by simp [step, hc]
      rw [hs]; exact h
    | some c => intro ha; simp [step, hc] at ha
  | quitEv =>
    cases hc : s.redisClient with
    | none =>
      have hs : step s GwEvent.quitEv = s := by simp [step, hc]
      rw [hs]; exact h
    | some c => intro ha; simp [step, hc] at ha

/-- Helper: the availability invariant holds after any event sequence. -/
theorem availInv_foldl (es : List GwEvent) (s : GatewayState)
    (h : AvailInv s) : AvailInv (es.foldl step s) := by
  induction es generalizing s with
  | nil => exact h
  | cons e es ih => exact ih _ (availInv_step s e h)

/-- C4: in every state reachable through the transport event handlers,
the initial-connect rejection and the operation failure handlers, the
flag is never true while the derived Connection State is Degraded or
Closed. -/
theorem availability_never_true_when_degraded_or_closed (es : List GwEvent)
    (h : (run es).redisAvailable = true) :
    connStateOf (run es) ≠ ConnState.degraded
    ∧ connStateOf (run es) ≠ ConnState.closed := by
  obtain ⟨c, hc, hs⟩ := availInv_foldl es init0 availInv_init0 h
  rcases hs with h1 | h1 <;>
    exact ⟨by simp [connStateOf, run, hc, h1], by simp [connStateOf, run, hc, h1]⟩

/-- Witness for C4 on the trace that reaches a ready, available state. -/
theorem availability_never_true_when_degraded_or_closed_witness :
    (run [GwEvent.initCall, GwEvent.readyEv]).redisAvailable = true
    ∧ connStateOf (run [GwEvent.initCall, GwEvent.readyEv]) ≠ ConnState.degraded
    ∧ connStateOf (run [GwEvent.initCall, GwEvent.readyEv]) ≠ ConnState.closed := by
  refine ⟨by decide, ?_, ?_⟩
  · exact (availability_never_true_when_degraded_or_closed
      [GwEvent.initCall, GwEvent.readyEv] (by decide)).1
  · exact (availability_never_true_when_degraded_or_closed
      [GwEvent.initCall, GwEvent.readyEv] (by decide)).2

/-- C5: under the availability guard, `ping` answers true exactly when
the transport reply is the sentinel string "PONG"; any other reply,
including a differently-cased one, yields false. -/
theorem ping_sentinel_exact (s : GatewayState) (reply : String)
    (hg : opGuard s = true) :
    (ping s (TransportResult.ok reply)).ret = true ↔ reply = "PONG" := by
  simp [ping, hg]

/-- Witness for C5: a lower-case reply is not accepted. -/
theorem ping_sentinel_exact_witness :
    ((ping sReadyState (TransportResult.ok "pong")).ret = true
      ↔ ("pong" : String) = "PONG") :=
  ping_sentinel_exact sReadyState "pong" (by decide)

/-- C6: `initRedis` is idempotent: iterating it any positive number of
times from the fresh module state equals one call, which produces the
one client object with exactly one `connect()` attempt and exactly one
registration of each of the five event handlers; and every call made
while a client object exists is a no-op. -/
theorem initRedis_idempotent (n : Nat) (hn : 1 ≤ n) :
    initRedis^[n] init0 = initRedis init0
    ∧ (initRedis^[n] init0).redisClient = some freshClient
    ∧ freshClient.connectAttempts = 1
    ∧ freshClient.errorHandlers = 1
    ∧ freshClient.connectHandlers = 1
    ∧ freshClient.readyHandlers = 1
    ∧ freshClient.closeHandlers = 1
    ∧ freshClient.reconnectingHandlers = 1
    ∧ (∀ s : GatewayState, s.redisClient.isSome = true → initRedis s = s) := by
  have hsome : (initRedis init0).redisClient = some freshClient := rfl
  have key : ∀ m : Nat, initRedis^[m + 1] init0 = initRedis init0 := by
    intro m
    induction m with
    | zero => rfl
    | succ k ih =>
      rw [Function.iterate_succ_apply', ih]
      exact initRedis_noop_of_isSome _ (by simp [hsome])
  obtain ⟨m, rfl⟩ : ∃ m, n = m + 1 := ⟨n - 1, by omega⟩
  refine ⟨key m, ?_, rfl, rfl, rfl, rfl, rfl, rfl, initRedis_noop_of_isSome⟩
  rw [key m]
  exact hsome

/-- Witness for C6 at three consecutive calls. -/
theorem initRedis_idempotent_witness :
    initRedis^[3] init0 = initRedis init0
    ∧ (initRedis^[3] init0).redisClient = some freshClient :=
  ⟨(initRedis_idempotent 3 (by decide)).1, (initRedis_idempotent 3 (by decide)).2.1⟩

/-- C7: `mset` on the empty pair list returns false, leaves the state
unchanged and performs no transport round-trip, in every state (the
availability guard short-circuits on `!keyValuePairs.length`) and for
every transport behaviour. -/
theorem mset_empty_batch (s : GatewayState) (t : TransportResult String) :
    mset s [] t = { state := s, ret := false, ioPerformed := false } := by
  simp [mset]

/-- C8: the reconnection backoff returns `min (attempt * 50) 2000`
milliseconds for every attempt number, always produces a delay (a
non-number return would stop ioredis from retrying, so retries are
uncapped), and that delay never exceeds 2000 ms. -/
theorem retryStrategy_formula (times : Nat) :
    retryStrategy times = some (Nat.min (times * 50) 2000)
    ∧ (retryStrategy times).isSome = true
    ∧ (retryStrategy times).getD 0 ≤ 2000 := by
  refine ⟨rfl, rfl, ?_⟩
  simp [retryStrategy]

/-- C9: under the availability guard, a resolved transport call makes
`del` return true whatever deletion count the transport reported
(including 0, when no key existed), and likewise `setex` and `mset`
return true with their transport replies discarded. -/
theorem success_replies_discarded (s : GatewayState)
    (key value okReply : String) (seconds count : Nat)
    (pairs : List (String × String))
    (hg : opGuard s = true) (hp : pairs ≠ []) :
    (del s key (TransportResult.ok count)).ret = true
    ∧ (setex s key seconds value (TransportResult.ok okReply)).ret = true
    ∧ (mset s pairs (TransportResult.ok okReply)).ret = true := by
  cases pairs with
  | nil => exact absurd rfl hp
  | cons p ps => simp [del, setex, mset, hg]

/-- Witness for C9: deleting an absent key (transport count 0) still
reports true. -/
theorem success_replies_discarded_witness :
    (del sReadyState "missing" (TransportResult.ok 0)).ret = true :=
  (success_replies_discarded sReadyState "missing" "v" "OK" 60 0
    [("a", "1")] (by decide) (by decide)).1

/-- C10: `isAvailable` implies the operations' guard, and in the
reachable state after the connect event but before the ready event,
`isAvailable` is false while all six operations still contact the
transport: the public predicate is strictly stronger than the guard. -/
theorem isAvailable_strictly_stronger_than_guard :
    (∀ s : GatewayState, isAvailable s = true → opGuard s = true)
    ∧ isAvailable sConnectState = false
    ∧ opGuard sConnectState = true
    ∧ (get sConnectState "k" (TransportResult.ok (some "v"))).ioPerformed = true
    ∧ (setex sConnectState "k" 60 "v" (TransportResult.ok "OK")).ioPerformed = true
    ∧ (del sConnectState "k" (TransportResult.ok 1)).ioPerformed = true
    ∧ (mget sConnectState ["k"] (TransportResult.ok [some "v"])).ioPerformed = true
    ∧ (mset sConnectState [("k", "v")] (TransportResult.ok "OK")).ioPerformed = true
    ∧ (ping sConnectState (TransportResult.ok "PONG")).ioPerformed = true := by
  refine ⟨?_, by decide, by decide, by decide, by decide, by decide, by decide,
    by decide, by decide⟩
  intro s h
  cases hc : s.redisClient with
  | none => simp [isAvailable, hc] at h
  | some c =>
    simp [isAvailable, hc] at h
    simp [opGuard, hc, h.1]

/-- Witness for C10's implication at a concrete ready state. -/
theorem isAvailable_strictly_stronger_than_guard_witness :
    opGuard sReadyState = true :=
  isAvailable_strictly_stronger_than_guard.1 sReadyState (by decide)

end RedisGateway
